import Mathlib

/-!
Verification development for the CPyQ repository's websocket protocol core:
the sliding-window ratelimiter (`Common/utils.py:check_ratelimit`), the
timestamp codec (`Common/utils.py:decode_datetime` with the fixed format
`%Y-%m-%dT%H:%M:%S.%f%z`), the wire codec
(`Common/websocket_extensions.py:custom_message_factory` and the
`CustomWSMessage` / `WSEvent` / `WSAck` constructors), the protocol engine
loop (`WSResponseMixin.__anext__` / `close`), and the ownership registry
described in the design document.

Machine values are modelled as follows: wall-clock times (Python floats
produced by `time.time()`) as integer ticks of an arbitrarily fine clock —
only their ordering and differences matter here — JSON values as an
inductive type,
Python exceptions as explicit error sums.  A Python function that can raise
is an `Except` / `Option` valued Lean function.
-/

/-! ## Timestamp decoding (`Common/utils.py:decode_datetime`)

`decode_datetime(t)` is `datetime.strptime(t, "%Y-%m-%dT%H:%M:%S.%f%z")`.
We model CPython's `_strptime` behaviour for this fixed format string: each
directive matches the regular expression CPython compiles for it (`%Y` four
digits, `%m` `1[0-2]|0[1-9]|[1-9]`, `%d` `3[01]|[12]\d|0[1-9]|[1-9]`,
`%H` `2[0-3]|[0-1]\d|\d`, `%M`/`%S` `[0-5]\d|\d` (plus leap forms for `%S`),
`%f` one to six digits zero-padded on the right, `%z`
`[+-]\d\d:?[0-5]\d(:?[0-5]\d(\.\d{1,6})?)?|Z` with `Z` case sensitive and the
literal `T` case insensitive), the whole input must be consumed, the UTC
offset must be strictly less than 24 hours in magnitude, and the resulting
field values must form a valid calendar datetime, otherwise `ValueError` is
raised (modelled as `none`).  Each numeric directive here is followed by a
non-digit literal (or by `%z`, which cannot start with a digit), so matching
a maximal digit run and validating its length and value is equivalent to the
backtracking regular-expression match. -/

/-- The digit run at the head of a character list, and the remainder. -/
def takeDigits : List Char → List Char × List Char
  | [] => ([], [])
  | c :: cs =>
    if c.isDigit then
      let p := takeDigits cs
      (c :: p.1, p.2)
    else ([], c :: cs)

/-- Numeric value of a digit run. -/
def digitsVal (l : List Char) : ℕ :=
  l.foldl (fun a c => a * 10 + (c.toNat - 48)) 0

/-- Lexical forms accepted by `%m`: one digit `1-9`, or two digits `01-12`. -/
def monthRunOK (l : List Char) : Bool :=
  decide ((l.length = 1 ∧ 1 ≤ digitsVal l) ∨
    (l.length = 2 ∧ 1 ≤ digitsVal l ∧ digitsVal l ≤ 12))

/-- Lexical forms accepted by `%d`: one digit `1-9`, or two digits `01-31`. -/
def dayRunOK (l : List Char) : Bool :=
  decide ((l.length = 1 ∧ 1 ≤ digitsVal l) ∨
    (l.length = 2 ∧ 1 ≤ digitsVal l ∧ digitsVal l ≤ 31))

/-- Lexical forms accepted by `%H`: one digit, or two digits `00-23`. -/
def hourRunOK (l : List Char) : Bool :=
  decide (l.length = 1 ∨ (l.length = 2 ∧ digitsVal l ≤ 23))

/-- Lexical forms accepted by `%M`: one digit, or two digits `00-59`. -/
def minuteRunOK (l : List Char) : Bool :=
  decide (l.length = 1 ∨ (l.length = 2 ∧ digitsVal l ≤ 59))

/-- Lexical forms accepted by `%S`: one digit, or two digits `00-61`
(the leap-second forms `60`/`61` match lexically and are rejected later by
the `datetime` constructor). -/
def secondRunOK (l : List Char) : Bool :=
  decide (l.length = 1 ∨ (l.length = 2 ∧ digitsVal l ≤ 61))

/-- The numeric fields of the main (offset-less) part of the format. -/
structure MainFields where
  year : ℕ
  month : ℕ
  day : ℕ
  hour : ℕ
  minute : ℕ
  second : ℕ
  micro : ℕ
  deriving DecidableEq

/-- Parse the `%Y-%m-%dT%H:%M:%S.%f` part of the format, returning the
fields and the unconsumed remainder (which `strptime` hands to `%z`). -/
def parseMain (l : List Char) : Option (MainFields × List Char) :=
  let py := takeDigits l
  if py.1.length = 4 then
    match py.2 with
    | '-' :: r2 =>
      let pm := takeDigits r2
      if monthRunOK pm.1 then
        match pm.2 with
        | '-' :: r4 =>
          let pd := takeDigits r4
          if dayRunOK pd.1 then
            match pd.2 with
            | c :: r6 =>
              if c = 'T' ∨ c = 't' then
                let ph := takeDigits r6
                if hourRunOK ph.1 then
                  match ph.2 with
                  | ':' :: r8 =>
                    let pmin := takeDigits r8
                    if minuteRunOK pmin.1 then
                      match pmin.2 with
                      | ':' :: r10 =>
                        let ps := takeDigits r10
                        if secondRunOK ps.1 then
                          match ps.2 with
                          | '.' :: r12 =>
                            let pf := takeDigits r12
                            if 1 ≤ pf.1.length ∧ pf.1.length ≤ 6 then
                              some (⟨digitsVal py.1, digitsVal pm.1,
                                digitsVal pd.1, digitsVal ph.1,
                                digitsVal pmin.1, digitsVal ps.1,
                                digitsVal pf.1 * 10 ^ (6 - pf.1.length)⟩,
                                pf.2)
                            else none
                          | _ => none
                        else none
                      | _ => none
                    else none
                  | _ => none
                else none
              else none
            | [] => none
          else none
        | _ => none
      else none
    | _ => none
  else none

/-- The optional seconds(+fraction) tail of a numeric `%z` offset, in
microseconds; the whole remainder must be consumed. -/
def offsetTail (r : List Char) : Option ℕ :=
  match r with
  | [] => some 0
  | _ =>
    let r1 := match r with
      | ':' :: t => t
      | _ => r
    match r1 with
    | s1 :: s2 :: r2 =>
      if ('0' ≤ s1 ∧ s1 ≤ '5') ∧ s2.isDigit then
        let sec := (s1.toNat - 48) * 10 + (s2.toNat - 48)
        match r2 with
        | [] => some (sec * 1000000)
        | '.' :: r3 =>
          let pf := takeDigits r3
          if (1 ≤ pf.1.length ∧ pf.1.length ≤ 6) ∧ pf.2 = [] then
            some (sec * 1000000 + digitsVal pf.1 * 10 ^ (6 - pf.1.length))
          else none
        | _ => none
      else none
    | _ => none

/-- Parse a complete `%z` offset, in signed microseconds; fails unless the
whole remainder is a well-formed offset strictly smaller than 24 hours in
magnitude (the `timezone` constructor's range check). -/
def parseOffset (l : List Char) : Option ℤ :=
  match l with
  | ['Z'] => some 0
  | c :: h1 :: h2 :: rest =>
    if (c = '+' ∨ c = '-') ∧ h1.isDigit ∧ h2.isDigit then
      let hh := (h1.toNat - 48) * 10 + (h2.toNat - 48)
      let rest1 := match rest with
        | ':' :: t => t
        | _ => rest
      match rest1 with
      | m1 :: m2 :: r2 =>
        if ('0' ≤ m1 ∧ m1 ≤ '5') ∧ m2.isDigit then
          let mm := (m1.toNat - 48) * 10 + (m2.toNat - 48)
          match offsetTail r2 with
          | some tailMicro =>
            let total : ℤ := ((hh * 3600 + mm * 60) * 1000000 + tailMicro : ℕ)
            if total < 86400000000 then
              some (if c = '-' then -total else total)
            else none
          | none => none
        else none
      | _ => none
    else none
  | _ => none

/-- Gregorian leap-year predicate. -/
def isLeapYear (y : ℕ) : Bool :=
  decide ((y % 4 = 0 ∧ y % 100 ≠ 0) ∨ y % 400 = 0)

/-- Number of days in a month. -/
def daysInMonth (y m : ℕ) : ℕ :=
  if m = 2 then (if isLeapYear y then 29 else 28)
  else if m = 4 ∨ m = 6 ∨ m = 9 ∨ m = 11 then 30
  else 31

/-- The `datetime` constructor's validation of the parsed fields. -/
def validMain (f : MainFields) : Bool :=
  decide (1 ≤ f.year ∧ 1 ≤ f.month ∧ f.month ≤ 12 ∧ 1 ≤ f.day ∧
    f.day ≤ daysInMonth f.year f.month ∧ f.hour ≤ 23 ∧ f.minute ≤ 59 ∧
    f.second ≤ 59)

/-- A timezone-aware Python `datetime` as produced by `decode_datetime`:
calendar fields plus the UTC offset in microseconds (the format's `%z`
directive is mandatory, so every decoded value carries an offset). -/
structure PyDateTime where
  year : ℕ
  month : ℕ
  day : ℕ
  hour : ℕ
  minute : ℕ
  second : ℕ
  microsecond : ℕ
  gmtoff : ℤ
  deriving DecidableEq

/-- `Common/utils.py:decode_datetime`: `strptime` with the fixed format
`%Y-%m-%dT%H:%M:%S.%f%z`; `none` models the `ValueError` raised on any
string that does not match the format exactly. -/
def decode_datetime (s : String) : Option PyDateTime :=
  match parseMain s.data with
  | none => none
  | some (f, rest) =>
    match parseOffset rest with
    | none => none
    | some off =>
      if validMain f then
        some ⟨f.year, f.month, f.day, f.hour, f.minute, f.second, f.micro, off⟩
      else none

example :
    decode_datetime "2024-01-02T03:04:05.123456+0000" =
      some ⟨2024, 1, 2, 3, 4, 5, 123456, 0⟩ := by decide
example : decode_datetime "2024-01-02T03:04:05.123456" = none := by decide
example : decode_datetime "2024-01-02T03:04:05.123456Z" =
    some ⟨2024, 1, 2, 3, 4, 5, 123456, 0⟩ := by decide
example : decode_datetime "2024-01-02T03:04:05.5+00:30" =
    some ⟨2024, 1, 2, 3, 4, 5, 500000, 1800000000⟩ := by decide
example : decode_datetime "2024-01-02T03:04:05.123456z" = none := by decide
example : decode_datetime "2024-02-30T03:04:05.123456+0000" = none := by decide

/-! ## JSON values and Python exception kinds

`message.json()` yields an arbitrary Python value built from JSON text;
`PyJson.null` models Python `None`.  `PyExc` models the exception classes
that `custom_message_factory` catches. -/

/-- A parsed JSON value (a Python object produced by `json.loads`). -/
inductive PyJson where
  | str (s : String)
  | num (q : ℚ)
  | bool (b : Bool)
  | null
  | arr (l : List PyJson)
  | obj (l : List (String × PyJson))

/-- Exception classes distinguished by `custom_message_factory`'s handlers. -/
inductive PyExc where
  | keyError
  | typeError
  | valueError
  deriving DecidableEq

instance {ε α : Type} [DecidableEq ε] [DecidableEq α] :
    DecidableEq (Except ε α) := fun x y =>
  match x, y with
  | .ok a, .ok b =>
    if h : a = b then .isTrue (by rw [h]) else .isFalse (by simp [h])
  | .error a, .error b =>
    if h : a = b then .isTrue (by rw [h]) else .isFalse (by simp [h])
  | .ok _, .error _ => .isFalse (by simp)
  | .error _, .ok _ => .isFalse (by simp)

/-- Python subscription `j[k]` with a string key: `KeyError` when the key is
absent from a dict, `TypeError` when the value is not a dict. -/
def PyJson.getItem (j : PyJson) (k : String) : Except PyExc PyJson :=
  match j with
  | .obj l =>
    match l.lookup k with
    | some v => .ok v
    | none => .error .keyError
  | _ => .error .typeError

/-- Python `dict.get(k)`: the stored value, or `None` when absent.  Only ever
reached on dict values in the source. -/
def PyJson.getDefault (j : PyJson) (k : String) : PyJson :=
  match j with
  | .obj l => (l.lookup k).getD .null
  | _ => .null

/-! ## Protocol enums (`Common/websocket_extensions.py`) -/

/-- `WSEventStatus`. -/
inductive WSEventStatus where
  | Normal
  | Error
  | Fatal
  deriving DecidableEq

/-- `WSEventStatus(value)`: `StrEnum` lookup by value; any argument that is
not one of the member values raises `ValueError`. -/
def wsEventStatusOf (v : PyJson) : Except PyExc WSEventStatus :=
  match v with
  | .str "normal" => .ok .Normal
  | .str "error" => .ok .Error
  | .str "fatal" => .ok .Fatal
  | _ => .error .valueError

/-- `CustomWSCloseCode`. -/
inductive CustomWSCloseCode where
  | TokenExpired
  | InvalidFrameType
  | InvalidJSON
  | MissingField
  | InvalidType
  | InvalidValue
  | DuplicateEventID
  | AckTimeout
  | UnknownEvent
  | FatalEvent
  | InternalError
  deriving DecidableEq

/-- The numeric value of each `CustomWSCloseCode` member. -/
def CustomWSCloseCode.code : CustomWSCloseCode → ℕ
  | .TokenExpired => 4000
  | .InvalidFrameType => 4001
  | .InvalidJSON => 4002
  | .MissingField => 4003
  | .InvalidType => 4004
  | .InvalidValue => 4005
  | .DuplicateEventID => 4006
  | .AckTimeout => 4007
  | .UnknownEvent => 4008
  | .FatalEvent => 4009
  | .InternalError => 4999

/-- `aiohttp.WSCloseCode.POLICY_VIOLATION`, the standard close code used on
ratelimit violations. -/
def policyViolation : ℕ := 1008

/-! ## Wire codec (`custom_message_factory` and the message constructors) -/

/-- A validated `WSAck`: the fields stored by `CustomWSMessage.__init__`
after its checks pass. -/
structure WSAck where
  id : String
  sent_at : PyDateTime

/-- A validated `WSEvent`: the fields stored by `WSEvent.__init__` after its
checks pass (`reason := none` models both an absent key and an explicit
JSON null, exactly as `dict.get` does). -/
structure WSEvent where
  id : String
  sent_at : PyDateTime
  status : WSEventStatus
  reason : Option String
  payload : List (String × PyJson)

/-- A message produced by the codec: `WSEvent | WSAck`. -/
inductive WSMsg where
  | event (e : WSEvent)
  | ack (a : WSAck)

/-- Whether a JSON value is an object (a Python dict). -/
def PyJson.isObj : PyJson → Bool
  | .obj _ => true
  | _ => false

/-- The reason check of `WSEvent.__init__`: the stored reason must be a
string or `None` (`TypeError` otherwise). -/
def reasonCheck : PyJson → Except PyExc (Option String)
  | .str r => .ok (some r)
  | .null => .ok none
  | _ => .error .typeError

/-- `CustomWSMessage.__init__`: reads `json["id"]`, decodes
`json["sent_at"]` (a non-string raises `TypeError` inside `strptime`, a
non-matching string raises `ValueError`), then checks that the id is a
string (`TypeError` otherwise) — in exactly this order. -/
def mkCustomWSMessage (j : PyJson) : Except PyExc (String × PyDateTime) := do
  let idv ← j.getItem "id"
  let sav ← j.getItem "sent_at"
  let dt ← match sav with
    | .str s =>
      match decode_datetime s with
      | some d => Except.ok d
      | none => Except.error PyExc.valueError
    | _ => Except.error PyExc.typeError
  match idv with
  | .str i => Except.ok (i, dt)
  | _ => Except.error PyExc.typeError

/-- `WSEvent.__init__`: the base constructor, then `json["status"]` through
the `WSEventStatus` enum, `json.get("reason")`, `json["payload"]`, then the
reason and payload type checks — in exactly this order. -/
def mkWSEvent (j : PyJson) : Except PyExc WSEvent := do
  let b ← mkCustomWSMessage j
  let sv ← j.getItem "status"
  let st ← wsEventStatusOf sv
  let rv := j.getDefault "reason"
  let pv ← j.getItem "payload"
  let reason ← reasonCheck rv
  match pv with
  | .obj pl => Except.ok ⟨b.1, b.2, st, reason, pl⟩
  | _ => Except.error PyExc.typeError

/-- `CustomWSMessageType`. -/
inductive CustomWSMessageType where
  | Event
  | Ack
  deriving DecidableEq

/-- `CustomWSMessageType(value)`: `StrEnum` lookup by value; any argument
that is not one of the member values raises `ValueError`. -/
def customWSMessageTypeOf (v : PyJson) : Except PyExc CustomWSMessageType :=
  match v with
  | .str "event" => .ok .Event
  | .str "ack" => .ok .Ack
  | _ => .error .valueError

/-- The body of `custom_message_factory`'s `try` block: dispatch on
`json["type"]` through the `CustomWSMessageType` enum (`ValueError` on an
unrecognized value), then run the constructor the `mapping` dict selects. -/
def factoryBody (j : PyJson) : Except PyExc WSMsg := do
  let tv ← j.getItem "type"
  let ty ← customWSMessageTypeOf tv
  match ty with
  | .Event => (mkWSEvent j).map .event
  | .Ack => (mkCustomWSMessage j).map fun b => .ack ⟨b.1, b.2⟩

/-- A raw inbound websocket frame as seen by `custom_message_factory`:
a non-text frame, a text frame whose body is not valid JSON, or a text
frame parsed to a JSON value. -/
inductive RawFrame where
  | nonText
  | textBad
  | text (j : PyJson)

/-- `custom_message_factory`: a non-text frame raises `InvalidFrameType`
before the `try` block; inside it, `JSONDecodeError` maps to `InvalidJSON`,
`KeyError` to `MissingField`, `TypeError` to `InvalidType` and `ValueError`
to `InvalidValue` (each via `protocol_error`, i.e. `WSException`). -/
def custom_message_factory : RawFrame → Except CustomWSCloseCode WSMsg
  | .nonText => .error .InvalidFrameType
  | .textBad => .error .InvalidJSON
  | .text j =>
    match factoryBody j with
    | .ok m => .ok m
    | .error .keyError => .error .MissingField
    | .error .typeError => .error .InvalidType
    | .error .valueError => .error .InvalidValue

/-! ## Ratelimiter (`Common/utils.py:check_ratelimit`) -/

/-- `Common/errors.py:RatelimitException`: carries the (pruned) hit list,
the limit and the interval. -/
structure RatelimitException where
  hits : List ℤ
  limit : ℕ
  interval : ℤ
  deriving DecidableEq

/-- `Common/utils.py:check_ratelimit`: prunes the window to the hits
strictly newer than `t - interval` (the source keeps `hit > cutoff`); if at
least `limit` hits survive it raises `RatelimitException` carrying the
surviving hits, the limit and the interval, without appending; otherwise it
appends `t`.  The caller's window is left equal to the returned list (the
source mutates `hits` in place). -/
def check_ratelimit (hits : List ℤ) (limit : ℕ) (interval : ℤ) (t : ℤ) :
    Except RatelimitException (List ℤ) :=
  let cutoff := t - interval
  let surviving := hits.filter fun hit => decide (cutoff < hit)
  if limit ≤ surviving.length then
    .error ⟨surviving, limit, interval⟩
  else
    .ok (surviving ++ [t])

example : check_ratelimit [0, 300, 600] 3 10000 900 =
    .error ⟨[0, 300, 600], 3, 10000⟩ := by decide

/-! ## Protocol engine (`WSResponseMixin`)

The per-connection state installed by `WSResponseMixin.__init__` and the
receive loop of `WSResponseMixin.__anext__`.  The two hook methods
`__recv_event__` and `__recv_ack__` are abstract in `Common` (their bodies
are `...`); they are modelled from the spec below.  The underlying
transport's `__anext__`/`close` (aiohttp) are modelled as: frames are drawn
in order from a queue, each paired with its arrival time (the value
`time.time()` has when the frame is processed), and `close` marks the
connection closed with the given code, returning `False` without any state
change when the connection is already closed or closing. -/

/-- The per-connection protocol state set up by `WSResponseMixin.__init__`. -/
structure EngineState where
  ratelimited : Bool
  limit : Option ℕ
  interval : Option ℤ
  hits : List ℤ
  sentUnacked : List String
  recvUnacked : List String
  closed : Bool
  closeCode : Option ℕ
  deriving DecidableEq

/-- `WSResponseMixin.__init__`: raises `TypeError` (modelled as `.error ()`)
when `ratelimited` is set but `limit` or `interval` is `None`; otherwise
records the three arguments and creates the empty window and id sets. -/
def WSResponseMixin_init (ratelimited : Bool) (limit : Option ℕ)
    (interval : Option ℤ) : Except Unit EngineState :=
  if ratelimited ∧ (limit = none ∨ interval = none) then
    .error ()
  else
    .ok ⟨ratelimited, limit, interval, [], [], [], false, none⟩

/-- `WSResponseMixin.close` composed with the transport close (aiohttp):
when the connection is not yet closed, it is marked closed with the given
code and `True` is returned; when it is already closing or closed, nothing
changes and `False` is returned. -/
def closeWS (s : EngineState) (code : ℕ) : Bool × EngineState :=
  if s.closed then (false, s)
  else (true, { s with closed := true, closeCode := some code })

/-- Outcome of the ratelimit step of one `__anext__` loop iteration. -/
inductive RLResult where
  | passed (hits : List ℤ)
  | failed (hits : List ℤ)
  | crashed
  deriving DecidableEq

/-- The `if self.ratelimited: check_ratelimit(...)` step: skipped entirely
when `ratelimited` is false; `crashed` models the uncaught `TypeError` that
arithmetic on a `None` limit or interval would raise (unreachable from
`WSResponseMixin_init`). -/
def rlCheck (s : EngineState) (t : ℤ) : RLResult :=
  if s.ratelimited then
    match s.limit, s.interval with
    | some l, some i =>
      match check_ratelimit s.hits l i t with
      | .error e => .failed e.hits
      | .ok hits2 => .passed hits2
    | _, _ => .crashed
  else .passed s.hits

/-- Modelled from the spec: `__recv_ack__` (abstract in
`Common/websocket_extensions.py`) removes the acknowledged id from the
connection's sent-but-unacknowledged set and does nothing else. -/
def recvAck (s : EngineState) (ackId : String) : EngineState :=
  { s with sentUnacked := s.sentUnacked.filter fun y => decide (y ≠ ackId) }

/-- Modelled from the spec: `__recv_event__` (abstract in
`Common/websocket_extensions.py`) records the event id in the connection's
received-pending set; a repeated id is a protocol violation and raises
`WSException` with close code `DuplicateEventID`, which the `__anext__`
handler turns into a close. -/
def recvEvent (s : EngineState) (eventId : String) :
    Except CustomWSCloseCode EngineState :=
  if eventId ∈ s.recvUnacked then .error .DuplicateEventID
  else .ok { s with recvUnacked := eventId :: s.recvUnacked }

/-- Result of one call of `WSResponseMixin.__anext__` over a queue of
pending frames: a delivered event (with the new state and the unconsumed
frames), `StopAsyncIteration` after a close, suspension when the queue is
exhausted, or an uncaught exception. -/
inductive AnextOutcome where
  | event (e : WSEvent) (s : EngineState) (rest : List (ℤ × RawFrame))
  | stop (s : EngineState)
  | blocked (s : EngineState)
  | crash (s : EngineState)

/-- `WSResponseMixin.__anext__`: loop over the pending frames; each
iteration applies the ratelimiter (a `RatelimitException` closes the
connection with the standard policy-violation code and raises
`StopAsyncIteration`), decodes the frame (a `WSException` closes the
connection with the mapped code and raises `StopAsyncIteration`), consumes
an `Ack` via `__recv_ack__` and continues, or records an `Event` via
`__recv_event__` (whose `DuplicateEventID` violation also closes) and
returns it. -/
def anext (s : EngineState) : List (ℤ × RawFrame) → AnextOutcome
  | [] => if s.closed then .stop s else .blocked s
  | (t, f) :: rest =>
    if s.closed then .stop s
    else
      match rlCheck s t with
      | .crashed => .crash s
      | .failed hits2 =>
        .stop (closeWS { s with hits := hits2 } policyViolation).2
      | .passed hits2 =>
        let s1 := { s with hits := hits2 }
        match custom_message_factory f with
        | .error c => .stop (closeWS s1 c.code).2
        | .ok (.ack a) => anext (recvAck s1 a.id) rest
        | .ok (.event e) =>
          match recvEvent s1 e.id with
          | .error c => .stop (closeWS s1 c.code).2
          | .ok s2 => .event e s2 rest

/-! ## Ownership registry (design document §4.4)

The `Session` / `Resource` classes and the claim/release logic live outside
`Common` (only the conflict error classes `ResourceLocked` / `SessionBound`
/ `ResourceNotOwned` are declared in `Common/errors.py`), so the registry is
modelled from the spec.  Sessions and resources are identified by naturals;
the registry state is the list of currently recorded (session, resource)
ownership pairs, most recent first. -/

/-- The conflict errors a `claim` can raise (`Common/errors.py`). -/
inductive ClaimError where
  | resourceLocked
  | sessionBound
  deriving DecidableEq

/-- The error a `release` can raise (`Common/errors.py`). -/
inductive ReleaseError where
  | resourceNotOwned
  deriving DecidableEq

/-- Modelled from the spec: the Ownership Registry's state, the set of
currently recorded (session, resource) ownership pairs. -/
structure Registry where
  pairs : List (ℕ × ℕ)
  deriving DecidableEq

/-- Modelled from the spec: `owner_of(resource) → session | none`, a pure
lookup. -/
def owner_of (g : Registry) (r : ℕ) : Option ℕ :=
  (g.pairs.find? fun p => decide (p.2 = r)).map Prod.fst

/-- Modelled from the spec: `resource_of(session) → resource | none`, a pure
lookup. -/
def resource_of (g : Registry) (s : ℕ) : Option ℕ :=
  (g.pairs.find? fun p => decide (p.1 = s)).map Prod.snd

/-- Modelled from the spec: `claim(session, resource)` fails with
`ResourceLocked` if the resource is already claimed by a different session,
fails with `SessionBound` if the requesting session already owns a
different resource (the two checks in the order the spec lists them),
re-claiming an owned resource is an idempotent success, and otherwise the
pair is recorded atomically. -/
def claim (g : Registry) (s r : ℕ) : Except ClaimError Registry :=
  match owner_of g r with
  | some s2 => if s2 = s then .ok g else .error .resourceLocked
  | none =>
    match resource_of g s with
    | some r2 => if r2 = r then .ok g else .error .sessionBound
    | none => .ok ⟨(s, r) :: g.pairs⟩

/-- Modelled from the spec: `release(session, resource)` fails with
`ResourceNotOwned` if the session does not currently own that resource, and
otherwise removes the pair atomically. -/
def release (g : Registry) (s r : ℕ) : Except ReleaseError Registry :=
  if resource_of g s = some r then
    .ok ⟨g.pairs.filter fun p => decide (p ≠ (s, r))⟩
  else .error .resourceNotOwned

/-- The registry states reachable from the empty registry through
successful `claim` and `release` calls (failed calls leave the state
unchanged). -/
inductive Reachable : Registry → Prop where
  | empty : Reachable ⟨[]⟩
  | claim_ok {g g2 : Registry} {s r : ℕ} :
      Reachable g → claim g s r = .ok g2 → Reachable g2
  | release_ok {g g2 : Registry} {s r : ℕ} :
      Reachable g → release g s r = .ok g2 → Reachable g2

/-- The exclusivity invariant: no two recorded pairs share a session or a
resource. -/
def RegOK (g : Registry) : Prop :=
  ∀ p ∈ g.pairs, ∀ q ∈ g.pairs, (p.1 = q.1 ∨ p.2 = q.2) → p = q

/-! ## Shared inversion helpers -/

theorem except_bind_ok {ε α β : Type} {x : Except ε α} {f : α → Except ε β}
    {b : β} (h : (x >>= f) = .ok b) : ∃ a, x = .ok a ∧ f a = .ok b := by
  cases x with
  | ok a => exact ⟨a, rfl, h⟩
  | error e => simp [Bind.bind, Except.bind] at h

theorem except_map_ok {ε α β : Type} {x : Except ε α} {f : α → β}
    {b : β} (h : Except.map f x = .ok b) : ∃ a, x = .ok a ∧ f a = b := by
  cases x with
  | ok a =>
    refine ⟨a, rfl, ?_⟩
    simpa [Except.map] using h
  | error e => simp [Except.map] at h

/-! ## C1: the ratelimit check -/

/-- C1: for every window `hits`, `limit`, `interval` and current time `t`,
`check_ratelimit` first prunes the window to the hits newer than the cutoff
`t - interval` (dropping every hit older than `interval` relative to `t`);
if at least `limit` hits survive it fails with the rate-exceeded error
carrying exactly the surviving hits, the limit and the interval, appending
nothing; otherwise it appends `t` to the surviving hits and returns.  In
particular, with `limit = 3` and `interval = 10` seconds, four calls within
one second (here at 0, 0.3, 0.6 and 0.9 seconds, in millisecond ticks)
make the fourth call fail carrying exactly the 3 surviving hits. -/
theorem check_ratelimit_correct (hits : List ℤ) (limit : ℕ) (interval t : ℤ) :
    (limit ≤ (hits.filter fun h => decide (t - interval < h)).length →
      check_ratelimit hits limit interval t =
        .error ⟨hits.filter fun h => decide (t - interval < h), limit,
          interval⟩) ∧
    ((hits.filter fun h => decide (t - interval < h)).length < limit →
      check_ratelimit hits limit interval t =
        .ok ((hits.filter fun h => decide (t - interval < h)) ++ [t])) ∧
    (check_ratelimit [] 3 10000 0 = .ok [0] ∧
      check_ratelimit [0] 3 10000 300 = .ok [0, 300] ∧
      check_ratelimit [0, 300] 3 10000 600 = .ok [0, 300, 600] ∧
      check_ratelimit [0, 300, 600] 3 10000 900 =
        .error ⟨[0, 300, 600], 3, 10000⟩ ∧
      ([(0 : ℤ), 300, 600]).length = 3) := by
  refine ⟨fun h => ?_, fun h => ?_, by decide⟩
  · simp only [check_ratelimit]
    rw [if_pos h]
  · simp only [check_ratelimit]
    rw [if_neg (not_le.mpr h)]

/-- Witness for C1 at concrete inputs: the fourth call in the scenario
fails through the general error branch, and an under-limit call appends
through the general success branch. -/
theorem check_ratelimit_correct_witness :
    check_ratelimit [0, 300, 600] 3 10000 900 =
      .error ⟨[0, 300, 600], 3, 10000⟩ ∧
    check_ratelimit [0] 3 10000 300 = .ok [0, 300] :=
  ⟨(check_ratelimit_correct [0, 300, 600] 3 10000 900).1 (by decide),
    (check_ratelimit_correct [0] 3 10000 300).2.1 (by decide)⟩

/-! ## Concrete frames used by the witnesses -/

/-- A timestamp string in the wire format. -/
def sampleTS : String := "2024-01-02T03:04:05.123456+0000"

/-- The datetime `sampleTS` decodes to. -/
def sampleDT : PyDateTime := ⟨2024, 1, 2, 3, 4, 5, 123456, 0⟩

example : decode_datetime sampleTS = some sampleDT := by decide

/-- A well-formed event frame with the given id, normal status and empty
payload. -/
def eventFrame (i : String) : RawFrame :=
  .text (.obj [("type", .str "event"), ("id", .str i),
    ("sent_at", .str sampleTS), ("status", .str "normal"),
    ("payload", .obj [])])

/-- A well-formed ack frame with the given id. -/
def ackFrame (i : String) : RawFrame :=
  .text (.obj [("type", .str "ack"), ("id", .str i),
    ("sent_at", .str sampleTS)])

example : custom_message_factory (eventFrame "a") =
    .ok (.event ⟨"a", sampleDT, .Normal, none, []⟩) := rfl
example : custom_message_factory (ackFrame "x") =
    .ok (.ack ⟨"x", sampleDT⟩) := rfl

/-! ## C10: constructor argument validation -/

/-- C10: constructing the connection object with `ratelimited = True`
requires both `limit` and `interval`: if either is `None` the constructor
raises `TypeError` and produces no connection state, with both given it
succeeds, with `ratelimited = False` both may be omitted, and on a
non-ratelimited connection the ratelimit step of the receive loop is
skipped (the window is left untouched) on every received frame. -/
theorem init_requires_limit_and_interval (l : ℕ) (i : ℤ) (s : EngineState)
    (t : ℤ) :
    (∀ io : Option ℤ, WSResponseMixin_init true none io = .error ()) ∧
    (∀ lo : Option ℕ, WSResponseMixin_init true lo none = .error ()) ∧
    WSResponseMixin_init true (some l) (some i) =
      .ok ⟨true, some l, some i, [], [], [], false, none⟩ ∧
    WSResponseMixin_init false none none =
      .ok ⟨false, none, none, [], [], [], false, none⟩ ∧
    (s.ratelimited = false → rlCheck s t = .passed s.hits) := by
  refine ⟨fun io => ?_, fun lo => ?_, ?_, ?_, fun h => ?_⟩
  · simp [WSResponseMixin_init]
  · simp [WSResponseMixin_init]
  · simp [WSResponseMixin_init]
  · simp [WSResponseMixin_init]
  · simp [rlCheck, h]

/-- Witness for C10 at concrete inputs. -/
theorem init_requires_limit_and_interval_witness :
    WSResponseMixin_init true none (some 10) = .error () ∧
    rlCheck ⟨false, none, none, [3], [], [], false, none⟩ 7 = .passed [3] :=
  ⟨(init_requires_limit_and_interval 1 1
      ⟨false, none, none, [3], [], [], false, none⟩ 7).1 (some 10),
    (init_requires_limit_and_interval 1 1
      ⟨false, none, none, [3], [], [], false, none⟩ 7).2.2.2.2 rfl⟩

/-! ## C9: close idempotence -/

/-- C9 (amended): closing an engine that is already closing or closed
performs no action and returns `False`; hence a second close after a
successful first close (which returned `True`) changes no state and
returns `False`. -/
theorem close_noop_when_closed (s : EngineState) (c c2 : ℕ) :
    (s.closed = true → closeWS s c2 = (false, s)) ∧
    (s.closed = false →
      (closeWS s c).1 = true ∧
      closeWS (closeWS s c).2 c2 = (false, (closeWS s c).2)) := by
  refine ⟨fun h => ?_, fun h => ⟨?_, ?_⟩⟩
  · simp [closeWS, h]
  · simp [closeWS, h]
  · simp [closeWS, h]

/-- Witness for C9 at a concrete engine state. -/
theorem close_noop_when_closed_witness :
    closeWS ⟨false, none, none, [], [], [], true, some 1000⟩ 1001 =
      (false, ⟨false, none, none, [], [], [], true, some 1000⟩) :=
  (close_noop_when_closed ⟨false, none, none, [], [], [], true, some 1000⟩
    1001 1001).1 rfl

/-- Counterexample to C9 as stated: after a successful first close (which
returned `True`), the second close returns `False`, not the prior outcome,
even though the state is unchanged. -/
theorem close_prior_outcome_counterexample :
    (closeWS ⟨false, none, none, [], [], [], false, none⟩ 1000).1 = true ∧
    (closeWS (closeWS ⟨false, none, none, [], [], [], false, none⟩ 1000).2
      1000).1 = false ∧
    (false : Bool) ≠ true := by
  refine ⟨rfl, rfl, by decide⟩

/-! ## C3: acks are absorbed -/

/-- C3: an `Ack` received on an open connection removes exactly its id from
the connection's sent-but-unacknowledged set, performs no other visible
action, and is never returned by the receive loop: the loop continues with
the next pending frame (suspending when there is none), in the state with
the id removed (and the ratelimit window advanced by this frame). -/
theorem anext_ack_consumed (s : EngineState) (t : ℤ) (f : RawFrame)
    (a : WSAck) (hits2 : List ℤ) (rest : List (ℤ × RawFrame))
    (hopen : s.closed = false) (hrl : rlCheck s t = .passed hits2)
    (hf : custom_message_factory f = .ok (.ack a)) :
    anext s ((t, f) :: rest) =
      anext { s with
                hits := hits2,
                sentUnacked :=
                  s.sentUnacked.filter (fun y => decide (y ≠ a.id)) } rest ∧
    (∀ y, y ∈ s.sentUnacked.filter (fun y => decide (y ≠ a.id)) ↔
      (y ∈ s.sentUnacked ∧ y ≠ a.id)) ∧
    anext s [(t, f)] =
      .blocked { s with
                   hits := hits2,
                   sentUnacked :=
                     s.sentUnacked.filter (fun y => decide (y ≠ a.id)) } := by
  refine ⟨?_, fun y => ?_, ?_⟩
  · simp [anext, hopen, hrl, hf, recvAck]
  · simp [List.mem_filter]
  · simp [anext, hopen, hrl, hf, recvAck]

/-- Witness for C3: on a connection with unacknowledged ids `x` and `y`,
an ack for `x` removes exactly `x` and yields no event. -/
theorem anext_ack_consumed_witness :
    anext ⟨false, none, none, [], ["x", "y"], [], false, none⟩
      [(0, ackFrame "x")] =
      .blocked ⟨false, none, none, [], ["y"], [], false, none⟩ :=
  (anext_ack_consumed ⟨false, none, none, [], ["x", "y"], [], false, none⟩
    0 (ackFrame "x") ⟨"x", sampleDT⟩ [] [] rfl rfl rfl).2.2

/-! ## C4: duplicate event detection -/

/-- C4: an `Event` received on an open connection has its id recorded in
the received-pending set and is delivered; an `Event` whose id is already
in that set is not delivered — the connection is closed with close code
`DuplicateEventID`, whose numeric value is 4006. -/
theorem anext_event_duplicate (s : EngineState) (t : ℤ) (f : RawFrame)
    (e : WSEvent) (hits2 : List ℤ) (rest : List (ℤ × RawFrame))
    (hopen : s.closed = false) (hrl : rlCheck s t = .passed hits2)
    (hf : custom_message_factory f = .ok (.event e)) :
    (e.id ∉ s.recvUnacked →
      anext s ((t, f) :: rest) =
        .event e { s with
                     hits := hits2,
                     recvUnacked := e.id :: s.recvUnacked } rest) ∧
    (e.id ∈ s.recvUnacked →
      anext s ((t, f) :: rest) =
        .stop { s with
                  hits := hits2,
                  closed := true,
                  closeCode :=
                    some CustomWSCloseCode.DuplicateEventID.code }) ∧
    CustomWSCloseCode.DuplicateEventID.code = 4006 := by
  refine ⟨fun h => ?_, fun h => ?_, rfl⟩
  · simp [anext, hopen, hrl, hf, recvEvent, h]
  · simp [anext, hopen, hrl, hf, recvEvent, h, closeWS]

/-- Witness for C4: a first event with id `a` is recorded and delivered; a
second event reusing id `a` closes the connection with code 4006. -/
theorem anext_event_duplicate_witness :
    anext ⟨false, none, none, [], [], [], false, none⟩
      [(0, eventFrame "a")] =
      .event ⟨"a", sampleDT, .Normal, none, []⟩
        ⟨false, none, none, [], [], ["a"], false, none⟩ [] ∧
    anext ⟨false, none, none, [], [], ["a"], false, none⟩
      [(1, eventFrame "a")] =
      .stop ⟨false, none, none, [], [], ["a"], true, some 4006⟩ :=
  ⟨(anext_event_duplicate ⟨false, none, none, [], [], [], false, none⟩
      0 (eventFrame "a") ⟨"a", sampleDT, .Normal, none, []⟩ [] []
      rfl rfl rfl).1 (by decide),
    (anext_event_duplicate ⟨false, none, none, [], [], ["a"], false, none⟩
      1 (eventFrame "a") ⟨"a", sampleDT, .Normal, none, []⟩ [] []
      rfl rfl rfl).2.1 (by decide)⟩

/-! ## C5: protocol violations close the connection -/

/-- C5: on an open connection, a frame failing the ratelimit check closes
the connection with the standard policy-violation code (1008), and a frame
the codec rejects closes the connection with the decode failure's mapped
close code, which is always in 4001–4005; in both cases the receive loop
ends in `StopAsyncIteration` and no event is delivered for that frame. -/
theorem anext_violation_closes (s : EngineState) (t : ℤ) (f : RawFrame)
    (rest : List (ℤ × RawFrame)) (hopen : s.closed = false) :
    (∀ hits2, rlCheck s t = .failed hits2 →
      anext s ((t, f) :: rest) =
        .stop { s with
                  hits := hits2,
                  closed := true,
                  closeCode := some policyViolation }) ∧
    (∀ hits2 c, rlCheck s t = .passed hits2 →
      custom_message_factory f = .error c →
      anext s ((t, f) :: rest) =
        .stop { s with
                  hits := hits2,
                  closed := true,
                  closeCode := some c.code }) ∧
    (∀ c, custom_message_factory f = .error c →
      4001 ≤ c.code ∧ c.code ≤ 4005) := by
  refine ⟨fun hits2 hrl => ?_, fun hits2 c hrl hc => ?_, fun c hc => ?_⟩
  · simp [anext, hopen, hrl, closeWS]
  · simp [anext, hopen, hrl, hc, closeWS]
  · cases f with
    | nonText =>
      simp [custom_message_factory] at hc
      subst hc
      decide
    | textBad =>
      simp [custom_message_factory] at hc
      subst hc
      decide
    | text j =>
      simp only [custom_message_factory] at hc
      cases hb : factoryBody j with
      | ok m => rw [hb] at hc; simp at hc
      | error pe =>
        rw [hb] at hc
        cases pe <;> (simp at hc; subst hc; decide)

/-- Witness for C5: a ratelimited connection at its limit is closed with
code 1008 by the next frame; a non-text frame closes a connection with the
mapped code 4001; and 4001 lies in the mapped range. -/
theorem anext_violation_closes_witness :
    anext ⟨true, some 1, some 10, [0], [], [], false, none⟩
      [(1, eventFrame "a")] =
      .stop ⟨true, some 1, some 10, [0], [], [], true, some 1008⟩ ∧
    anext ⟨false, none, none, [], [], [], false, none⟩ [(0, .nonText)] =
      .stop ⟨false, none, none, [], [], [], true, some 4001⟩ ∧
    (4001 ≤ CustomWSCloseCode.InvalidFrameType.code ∧
      CustomWSCloseCode.InvalidFrameType.code ≤ 4005) :=
  ⟨(anext_violation_closes ⟨true, some 1, some 10, [0], [], [], false, none⟩
      1 (eventFrame "a") [] rfl).1 [0] rfl,
    (anext_violation_closes ⟨false, none, none, [], [], [], false, none⟩
      0 .nonText [] rfl).2.1 [] .InvalidFrameType rfl rfl,
    (anext_violation_closes ⟨false, none, none, [], [], [], false, none⟩
      0 .nonText [] rfl).2.2 .InvalidFrameType rfl⟩

/-! ## C8: timestamp decoding requires an explicit offset -/

/-- C8: `decode_datetime` accepts exactly the fixed textual format — the
`%Y-%m-%dT%H:%M:%S.%f` fields followed by a mandatory explicit UTC offset
(`%z`) — and rejects every naive string: any input that is exactly the
offset-less main format fails, any successful decode consumed a non-empty
trailing offset, and concretely the format with microseconds and `+0000`
or `Z` offsets is accepted while the same string without an offset is
rejected. -/
theorem decode_datetime_requires_offset :
    (∀ (s : String) (f : MainFields), parseMain s.data = some (f, []) →
      decode_datetime s = none) ∧
    (∀ (s : String) (d : PyDateTime), decode_datetime s = some d →
      ∃ f rest, parseMain s.data = some (f, rest) ∧ rest ≠ [] ∧
        parseOffset rest = some d.gmtoff ∧ validMain f = true) ∧
    decode_datetime "2024-01-02T03:04:05.123456+0000" =
      some ⟨2024, 1, 2, 3, 4, 5, 123456, 0⟩ ∧
    decode_datetime "2024-01-02T03:04:05.123456Z" =
      some ⟨2024, 1, 2, 3, 4, 5, 123456, 0⟩ ∧
    decode_datetime "2024-01-02T03:04:05.123456" = none := by
  refine ⟨fun s f h => ?_, fun s d h => ?_, by decide, by decide, by decide⟩
  · simp [decode_datetime, h, parseOffset]
  · simp only [decode_datetime] at h
    split at h
    · simp at h
    · rename_i f rest hp
      split at h
      · simp at h
      · rename_i off ho
        split at h
        · rename_i hv
          refine ⟨f, rest, hp, ?_, ?_, hv⟩
          · rintro rfl
            simp [parseOffset] at ho
          · injection h with h2
            rw [← h2]
            exact ho
        · simp at h

/-- Witness for C8: the rejection branch applied to the concrete naive
string, and the success-inversion branch applied to an accepted string. -/
theorem decode_datetime_requires_offset_witness :
    decode_datetime "2024-01-02T03:04:05.123456" = none ∧
    ∃ f rest,
      parseMain ("2024-01-02T03:04:05.123456+0000" : String).data =
        some (f, rest) ∧ rest ≠ [] ∧
      parseOffset rest = some (⟨2024, 1, 2, 3, 4, 5, 123456, 0⟩ :
        PyDateTime).gmtoff ∧ validMain f = true :=
  ⟨decode_datetime_requires_offset.1 "2024-01-02T03:04:05.123456"
      ⟨2024, 1, 2, 3, 4, 5, 123456⟩ (by decide),
    decode_datetime_requires_offset.2.1 "2024-01-02T03:04:05.123456+0000"
      ⟨2024, 1, 2, 3, 4, 5, 123456, 0⟩ (by decide)⟩

/-! ## C7: ownership registry exclusivity -/

theorem owner_of_some {g : Registry} {r s2 : ℕ}
    (h : owner_of g r = some s2) : ∃ p ∈ g.pairs, p.1 = s2 ∧ p.2 = r := by
  rcases Option.map_eq_some'.mp h with ⟨p, hp, hps⟩
  have h2 := List.find?_some hp
  simp only [decide_eq_true_eq] at h2
  exact ⟨p, List.mem_of_find?_eq_some hp, hps, h2⟩

theorem owner_of_none {g : Registry} {r : ℕ} (h : owner_of g r = none) :
    ∀ p ∈ g.pairs, p.2 ≠ r := by
  intro p hp
  have := List.find?_eq_none.mp (Option.map_eq_none'.mp h) p hp
  simpa using this

theorem resource_of_some {g : Registry} {s r2 : ℕ}
    (h : resource_of g s = some r2) : ∃ p ∈ g.pairs, p.1 = s ∧ p.2 = r2 := by
  rcases Option.map_eq_some'.mp h with ⟨p, hp, hps⟩
  have h2 := List.find?_some hp
  simp only [decide_eq_true_eq] at h2
  exact ⟨p, List.mem_of_find?_eq_some hp, h2, hps⟩

theorem resource_of_none {g : Registry} {s : ℕ} (h : resource_of g s = none) :
    ∀ p ∈ g.pairs, p.1 ≠ s := by
  intro p hp
  have := List.find?_eq_none.mp (Option.map_eq_none'.mp h) p hp
  simpa using this

/-- A successful `claim` always leaves the requesting session as the owner
of the claimed resource. -/
theorem claim_ok_owner {g g2 : Registry} {s r : ℕ}
    (h : claim g s r = .ok g2) : owner_of g2 r = some s := by
  unfold claim at h
  split at h
  · rename_i s2 ho
    split at h
    · rename_i hs2
      injection h with h2
      subst h2
      rw [ho, hs2]
    · exact absurd h (by simp)
  · rename_i ho
    split at h
    · rename_i r2 hr
      split at h
      · rename_i hr2
        injection h with h2
        subst h2
        exfalso
        rcases resource_of_some hr with ⟨p, hp, hp1, hp2⟩
        exact owner_of_none ho p hp (hr2 ▸ hp2)
      · exact absurd h (by simp)
    · rename_i hr
      injection h with h2
      subst h2
      unfold owner_of
      rw [List.find?_cons_of_pos _ (by simp)]
      rfl

/-- The exclusivity invariant is preserved by successful claims. -/
theorem regOK_claim {g g2 : Registry} {s r : ℕ} (hg : RegOK g)
    (h : claim g s r = .ok g2) : RegOK g2 := by
  unfold claim at h
  split at h
  · rename_i s2 ho
    split at h
    · injection h with h2
      subst h2
      exact hg
    · exact absurd h (by simp)
  · rename_i ho
    split at h
    · rename_i r2 hr
      split at h
      · injection h with h2
        subst h2
        exact hg
      · exact absurd h (by simp)
    · rename_i hr
      injection h with h2
      subst h2
      intro p hp q hq hshare
      rcases List.mem_cons.mp hp with hp1 | hp1 <;>
        rcases List.mem_cons.mp hq with hq1 | hq1
      · rw [hp1, hq1]
      · exfalso
        subst hp1
        rcases hshare with h1 | h1
        · exact resource_of_none hr q hq1 h1.symm
        · exact owner_of_none ho q hq1 h1.symm
      · exfalso
        subst hq1
        rcases hshare with h1 | h1
        · exact resource_of_none hr p hp1 h1
        · exact owner_of_none ho p hp1 h1
      · exact hg p hp1 q hq1 hshare

/-- The exclusivity invariant is preserved by successful releases. -/
theorem regOK_release {g g2 : Registry} {s r : ℕ} (hg : RegOK g)
    (h : release g s r = .ok g2) : RegOK g2 := by
  unfold release at h
  split at h
  · injection h with h2
    subst h2
    intro p hp q hq hshare
    exact hg p (List.mem_of_mem_filter hp) q (List.mem_of_mem_filter hq)
      hshare
  · exact absurd h (by simp)

/-- Every reachable registry state satisfies the exclusivity invariant. -/
theorem reachable_regOK {g : Registry} (h : Reachable g) : RegOK g := by
  induction h with
  | empty => intro p hp; simp at hp
  | claim_ok _ hc ih => exact regOK_claim ih hc
  | release_ok _ hr ih => exact regOK_release ih hr

/-- C7 (amended): mutual exclusion in the ownership registry.  After
`claim(S1, R)` succeeds, `claim(S2, R)` for any `S2 ≠ S1` fails with
`ResourceLocked`, and it keeps failing so at any reachable state still
recording the pair; if `S1` owns `R1` and claims `R2 ≠ R1`, the call fails
— with `SessionBound` when `R2` is unclaimed, and with `ResourceLocked`
when `R2` is held by another session (the resource check runs first); and
at every reachable state no two recorded pairs share a session or a
resource. -/
theorem registry_mutual_exclusion :
    (∀ (g g2 : Registry) (s1 s2 r : ℕ), s1 ≠ s2 →
      claim g s1 r = .ok g2 →
      claim g2 s2 r = .error .resourceLocked) ∧
    (∀ (g : Registry) (s1 s2 r : ℕ), Reachable g → (s1, r) ∈ g.pairs →
      s1 ≠ s2 → claim g s2 r = .error .resourceLocked) ∧
    (∀ (g : Registry) (s r1 r2 : ℕ), resource_of g s = some r1 →
      r1 ≠ r2 → owner_of g r2 = none →
      claim g s r2 = .error .sessionBound) ∧
    (∀ (g : Registry) (s s2 r1 r2 : ℕ), Reachable g →
      resource_of g s = some r1 → r1 ≠ r2 → owner_of g r2 = some s2 →
      claim g s r2 = .error .resourceLocked) ∧
    (∀ g : Registry, Reachable g → ∀ p ∈ g.pairs, ∀ q ∈ g.pairs,
      (p.1 = q.1 ∨ p.2 = q.2) → p = q) := by
  refine ⟨fun g g2 s1 s2 r hne hc => ?_, fun g s1 s2 r hg hmem hne => ?_,
    fun g s r1 r2 hres hne how => ?_, fun g s s2 r1 r2 hg hres hne how => ?_,
    fun g hg => reachable_regOK hg⟩
  · simp [claim, claim_ok_owner hc, hne]
  · have how : owner_of g r = some s1 := by
      unfold owner_of
      rcases hf : g.pairs.find? (fun p => decide (p.2 = r)) with _ | p
      · exact absurd (List.find?_eq_none.mp hf (s1, r) hmem) (by simp)
      · have hp2 := List.find?_some hf
        simp only [decide_eq_true_eq] at hp2
        have : p = (s1, r) := reachable_regOK hg p
          (List.mem_of_find?_eq_some hf) (s1, r) hmem (Or.inr hp2)
        rw [hf, this]
        rfl
    simp [claim, how, hne]
  · simp [claim, how, hres, hne]
  · have hs2 : s2 ≠ s := by
      intro he
      subst he
      rcases owner_of_some how with ⟨p, hp, hp1, hp2⟩
      rcases resource_of_some hres with ⟨q, hq, hq1, hq2⟩
      have hpq : p = q := reachable_regOK hg p hp q hq
        (Or.inl (hp1.trans hq1.symm))
      apply hne
      rw [← hq2, ← hpq]
      exact hp2
    simp [claim, how, hs2]

/-- Witness for C7 at concrete registries: with session 1 owning resource
10, a claim of 10 by session 2 fails with `ResourceLocked`, and a claim of
the unclaimed resource 20 by session 1 fails with `SessionBound`. -/
theorem registry_mutual_exclusion_witness :
    claim ⟨[(1, 10)]⟩ 2 10 = .error .resourceLocked ∧
    claim ⟨[(1, 10)]⟩ 1 20 = .error .sessionBound :=
  ⟨registry_mutual_exclusion.1 ⟨[]⟩ ⟨[(1, 10)]⟩ 1 2 10 (by decide) rfl,
    registry_mutual_exclusion.2.2.1 ⟨[(1, 10)]⟩ 1 10 20 rfl (by decide) rfl⟩

/-- Counterexample to C7 as stated: in the reachable registry where
session 2 owns resource 20 and session 1 owns resource 10, the call
`claim(1, 20)` — session 1 already owning the different resource 10 —
fails with `ResourceLocked` (the resource is held by session 2), not with
`SessionBound` as the claim demands. -/
theorem registry_sessionbound_counterexample :
    Reachable ⟨[(2, 20), (1, 10)]⟩ ∧
    resource_of ⟨[(2, 20), (1, 10)]⟩ 1 = some 10 ∧ (10 : ℕ) ≠ 20 ∧
    claim ⟨[(2, 20), (1, 10)]⟩ 1 20 = .error .resourceLocked ∧
    ClaimError.resourceLocked ≠ ClaimError.sessionBound := by
  refine ⟨?_, rfl, by decide, rfl, by decide⟩
  have h1 : Reachable (⟨[(1, 10)]⟩ : Registry) :=
    Reachable.claim_ok Reachable.empty
      (show claim ⟨[]⟩ 1 10 = .ok ⟨[(1, 10)]⟩ from rfl)
  exact Reachable.claim_ok h1
    (show claim ⟨[(1, 10)]⟩ 2 20 = .ok ⟨[(2, 20), (1, 10)]⟩ from rfl)

/-! ## C2: the wire codec's failure mapping -/

theorem customWSMessageTypeOf_unknown {v : PyJson} (h1 : v ≠ .str "event")
    (h2 : v ≠ .str "ack") : customWSMessageTypeOf v = .error .valueError := by
  cases v with
  | str s =>
    by_cases hs1 : s = "event"
    · exact absurd (by rw [hs1]) h1
    by_cases hs2 : s = "ack"
    · exact absurd (by rw [hs2]) h2
    simp [customWSMessageTypeOf, hs1, hs2]
  | num q => rfl
  | bool b => rfl
  | null => rfl
  | arr l => rfl
  | obj l => rfl

/-- C2 (amended): the wire codec's failure mapping.  A non-text frame fails
with `InvalidFrameType`; text that is not valid JSON fails with
`InvalidJSON`; JSON that is not an object fails with `InvalidType` (the
`TypeError` of subscripting a non-dict); an object without the `"type"` key
fails with `MissingField`; a present `"type"` value that is not `"event"`
or `"ack"` — including any non-string — fails with `InvalidValue`; for a
recognized type, fields are read and checked in the constructors' order
(`id` key, `sent_at` key, `sent_at` decode, `id` type check, then for
events `status` key and enum, `payload` key, `reason` type check, `payload`
type check), and the first exception raised wins — a missing key giving
`MissingField`, a wrongly typed field `InvalidType`, an unrecognized enum
value or unparsable timestamp `InvalidValue` — so the five failure kinds
are not strictly layered as the spec's step order suggests; a frame passing
every check yields the constructed `Event` or `Ack`. -/
theorem custom_message_factory_mapping :
    custom_message_factory .nonText = .error .InvalidFrameType ∧
    custom_message_factory .textBad = .error .InvalidJSON ∧
    (∀ j : PyJson, j.isObj = false →
      custom_message_factory (.text j) = .error .InvalidType) ∧
    (∀ l : List (String × PyJson), l.lookup "type" = none →
      custom_message_factory (.text (.obj l)) = .error .MissingField) ∧
    (∀ (l : List (String × PyJson)) (v : PyJson),
      l.lookup "type" = some v → v ≠ .str "event" → v ≠ .str "ack" →
      custom_message_factory (.text (.obj l)) = .error .InvalidValue) ∧
    (∀ (l : List (String × PyJson)) (i ts : String) (dt : PyDateTime)
      (st : WSEventStatus) (sv : PyJson) (ro : Option String)
      (pl : List (String × PyJson)),
      l.lookup "type" = some (.str "event") →
      l.lookup "id" = some (.str i) →
      l.lookup "sent_at" = some (.str ts) →
      decode_datetime ts = some dt →
      l.lookup "status" = some sv →
      wsEventStatusOf sv = .ok st →
      reasonCheck ((l.lookup "reason").getD .null) = .ok ro →
      l.lookup "payload" = some (.obj pl) →
      custom_message_factory (.text (.obj l)) =
        .ok (.event ⟨i, dt, st, ro, pl⟩)) ∧
    (∀ (l : List (String × PyJson)) (i ts : String) (dt : PyDateTime),
      l.lookup "type" = some (.str "ack") →
      l.lookup "id" = some (.str i) →
      l.lookup "sent_at" = some (.str ts) →
      decode_datetime ts = some dt →
      custom_message_factory (.text (.obj l)) = .ok (.ack ⟨i, dt⟩)) ∧
    (custom_message_factory
        (.text (.obj [("type", .str "event")])) = .error .MissingField ∧
      custom_message_factory
        (.text (.obj [("type", .str "event"), ("id", .num 5)])) =
        .error .MissingField ∧
      custom_message_factory
        (.text (.obj [("type", .str "event"), ("id", .num 5),
          ("sent_at", .str sampleTS)])) = .error .InvalidType ∧
      custom_message_factory
        (.text (.obj [("type", .str "event"), ("id", .str "a"),
          ("sent_at", .str "nope")])) = .error .InvalidValue) := by
  refine ⟨rfl, rfl, fun j hj => ?_, fun l h => ?_, fun l v hv h1 h2 => ?_,
    fun l i ts dt st sv ro pl h1 h2 h3 h4 h5 h6 h7 h8 => ?_,
    fun l i ts dt h1 h2 h3 h4 => ?_, rfl, rfl, rfl, rfl⟩
  · cases j with
    | obj l => simp [PyJson.isObj] at hj
    | str s => rfl
    | num q => rfl
    | bool b => rfl
    | null => rfl
    | arr a => rfl
  · simp [custom_message_factory, factoryBody, PyJson.getItem, h,
      Bind.bind, Except.bind]
  · simp [custom_message_factory, factoryBody, PyJson.getItem, hv,
      customWSMessageTypeOf_unknown h1 h2, Bind.bind, Except.bind]
  · simp [custom_message_factory, factoryBody, mkWSEvent, mkCustomWSMessage,
      PyJson.getItem, PyJson.getDefault, h1, h2, h3, h4, h5, h6, h7, h8,
      customWSMessageTypeOf, Bind.bind, Except.bind, Except.map]
  · simp [custom_message_factory, factoryBody, mkCustomWSMessage,
      PyJson.getItem, h1, h2, h3, h4,
      customWSMessageTypeOf, Bind.bind, Except.bind, Except.map]

/-- Witness for C2: the missing-key branch and the event-success branch of
the mapping applied at concrete frames. -/
theorem custom_message_factory_mapping_witness :
    custom_message_factory (.text (.obj [("x", .null)])) =
      .error .MissingField ∧
    custom_message_factory (.text (.obj [("type", .str "event"),
        ("id", .str "a"), ("sent_at", .str sampleTS),
        ("status", .str "normal"), ("payload", .obj [])])) =
      .ok (.event ⟨"a", sampleDT, .Normal, none, []⟩) :=
  ⟨custom_message_factory_mapping.2.2.2.1 [("x", .null)] rfl,
    custom_message_factory_mapping.2.2.2.2.2.1
      [("type", .str "event"), ("id", .str "a"), ("sent_at", .str sampleTS),
        ("status", .str "normal"), ("payload", .obj [])]
      "a" sampleTS sampleDT .Normal (.str "normal") none [] rfl rfl rfl
      (by decide) rfl rfl rfl rfl⟩

/-- Counterexample to C2 as stated: a text frame whose object carries an
unrecognized `"type"` discriminator fails with `InvalidValue` (4005), not
with `MissingField` (4003) as the claimed step ordering requires. -/
theorem custom_message_factory_unknown_type_counterexample :
    custom_message_factory (.text (.obj [("type", .str "bogus")])) =
      .error .InvalidValue ∧
    CustomWSCloseCode.InvalidValue ≠ CustomWSCloseCode.MissingField :=
  ⟨rfl, by decide⟩

/-! ## C6: the accepted-event schema -/

theorem getItem_ok {l : List (String × PyJson)} {k : String} {v : PyJson}
    (h : PyJson.getItem (.obj l) k = .ok v) : l.lookup k = some v := by
  simp only [PyJson.getItem] at h
  split at h
  · rename_i w hw
    injection h with h2
    rw [hw, h2]
  · exact absurd h (by simp)

theorem reasonCheck_ok {v : PyJson} {ro : Option String}
    (h : reasonCheck v = .ok ro) :
    (v = .null ∧ ro = none) ∨ ∃ r, v = .str r ∧ ro = some r := by
  cases v with
  | str r =>
    injection h with h2
    exact Or.inr ⟨r, rfl, h2.symm⟩
  | null =>
    injection h with h2
    exact Or.inl ⟨rfl, h2.symm⟩
  | num q => exact absurd h (by simp [reasonCheck])
  | bool b => exact absurd h (by simp [reasonCheck])
  | arr a => exact absurd h (by simp [reasonCheck])
  | obj l => exact absurd h (by simp [reasonCheck])

/-- C6 (amended): every `Event` the wire codec accepts was decoded from a
JSON object whose `"payload"` field is present and is a map (never absent),
and whose `"reason"` field is absent, an explicit null, or a string — but
no correlation between `reason` and `status` is enforced. -/
theorem wsevent_schema_invariant (j : PyJson) (e : WSEvent)
    (h : custom_message_factory (.text j) = .ok (.event e)) :
    ∃ l, j = .obj l ∧
      (∃ pl, l.lookup "payload" = some (.obj pl) ∧ e.payload = pl) ∧
      ((l.lookup "reason").getD .null = .null ∧ e.reason = none ∨
        ∃ r, (l.lookup "reason").getD .null = .str r ∧
          e.reason = some r) := by
  simp only [custom_message_factory] at h
  split at h
  · rename_i m hfb
    injection h with hm
    subst hm
    simp only [factoryBody] at hfb
    obtain ⟨tv, htv, hrest⟩ := except_bind_ok hfb
    obtain ⟨ty, hty, hrest2⟩ := except_bind_ok hrest
    cases ty with
    | Ack =>
      obtain ⟨b, hb, habs⟩ := except_map_ok hrest2
      simp at habs
    | Event =>
      obtain ⟨ev, hev, heq⟩ := except_map_ok hrest2
      injection heq with heq2
      subst heq2
      cases j with
      | str s => exact absurd htv (by simp [PyJson.getItem])
      | num q => exact absurd htv (by simp [PyJson.getItem])
      | bool b => exact absurd htv (by simp [PyJson.getItem])
      | null => exact absurd htv (by simp [PyJson.getItem])
      | arr a => exact absurd htv (by simp [PyJson.getItem])
      | obj l =>
        refine ⟨l, rfl, ?_⟩
        simp only [mkWSEvent] at hev
        obtain ⟨b, hb, k1⟩ := except_bind_ok hev
        obtain ⟨sv, hsv, k2⟩ := except_bind_ok k1
        obtain ⟨st, hst, k3⟩ := except_bind_ok k2
        obtain ⟨pv, hpv, k4⟩ := except_bind_ok k3
        obtain ⟨reason, hreason, k5⟩ := except_bind_ok k4
        simp only [PyJson.getDefault] at hreason
        cases pv with
        | obj pl =>
          injection k5 with k6
          subst k6
          refine ⟨⟨pl, getItem_ok hpv, rfl⟩, ?_⟩
          rcases reasonCheck_ok hreason with ⟨hv, hr⟩ | ⟨r, hv, hr⟩
          · exact Or.inl ⟨hv, hr⟩
          · exact Or.inr ⟨r, hv, hr⟩
        | str s => exact absurd k5 (by simp)
        | num q => exact absurd k5 (by simp)
        | bool bb => exact absurd k5 (by simp)
        | null => exact absurd k5 (by simp)
        | arr a => exact absurd k5 (by simp)
  · exact absurd h (by simp)
  · exact absurd h (by simp)
  · exact absurd h (by simp)

/-- Witness for C6: the schema facts extracted from a concretely accepted
event frame. -/
theorem wsevent_schema_invariant_witness :
    ∃ l, (PyJson.obj [("type", .str "event"), ("id", .str "a"),
        ("sent_at", .str sampleTS), ("status", .str "normal"),
        ("payload", .obj [])]) = .obj l ∧
      (∃ pl, l.lookup "payload" = some (.obj pl) ∧
        (WSEvent.mk "a" sampleDT .Normal none []).payload = pl) ∧
      ((l.lookup "reason").getD .null = .null ∧
          (WSEvent.mk "a" sampleDT .Normal none []).reason = none ∨
        ∃ r, (l.lookup "reason").getD .null = .str r ∧
          (WSEvent.mk "a" sampleDT .Normal none []).reason = some r) :=
  wsevent_schema_invariant
    (.obj [("type", .str "event"), ("id", .str "a"),
      ("sent_at", .str sampleTS), ("status", .str "normal"),
      ("payload", .obj [])])
    ⟨"a", sampleDT, .Normal, none, []⟩ rfl

/-- Counterexample to C6 as stated: the codec accepts an event whose status
is `Error` while its reason is absent (`None`), violating the claimed
"reason is a present string when status is not Normal" invariant. -/
theorem wsevent_reason_status_counterexample :
    custom_message_factory (.text (.obj [("type", .str "event"),
        ("id", .str "a"), ("sent_at", .str sampleTS),
        ("status", .str "error"), ("payload", .obj [])])) =
      .ok (.event ⟨"a", sampleDT, .Error, none, []⟩) ∧
    WSEventStatus.Error ≠ WSEventStatus.Normal :=
  ⟨rfl, by decide⟩
